import Mathlib

/-!
Verification development for the waitable asynchronous delegate core
(`DelegateAsyncWait.h` of the AsyncMulticastDelegate library).

The embedding models the `DelegateMemberAsyncWait<RetType(TClass(Param1))>`
specialization; the other arities (N = 0..5) and the free-function variants
(`DelegateFreeAsyncWait`) repeat exactly the same control flow, so the model
is parametric in one argument type `α` (use `α := Unit` for N = 0) and the
return type `β`.

Pointers (object pointer, member-function pointer, thread pointer) are
modelled by `Nat` identities; the null thread pointer is `Option.none`.
The semantic effect of calling the bound member function — inherited from
`DelegateMember::operator()` in `Delegate.h`, which is not part of the
sources — is modelled from the spec as a pure function `memberCall : α → β`
(the spec: `invoke(args...) -> result`, a direct call).
-/

/-- State of one `DelegateMemberAsyncWait` object.  Fields `m_object`,
`m_func` and `memberCall` model the inherited `DelegateMember` part
(`Delegate.h` is not among the sources; modelled from the spec: a Callable
Target is an object reference plus a function identity, invocable directly).
`m_thread`, `m_success`, `m_timeout`, `m_refCnt` are the fields of
`DelegateMemberAsyncWaitBase` (`DelegateAsyncWait.h` lines 81-86 / 315-320);
`m_semaSignaled` models the signalled state of `m_sema`; `m_retVal` is the
derived-class result slot (line 418). -/
structure DelegateMemberAsyncWait (α β : Type) where
  m_object : Nat
  m_func : Nat
  memberCall : α → β
  m_thread : Option Nat
  m_success : Bool
  m_timeout : Int
  m_refCnt : Int
  m_semaSignaled : Bool
  m_retVal : β

/-- The copy constructor (`DelegateAsyncWait.h` lines 277-280 plus `Swap`
lines 323-327): the `DelegateMember` base is copied, `m_refCnt` is
initialized to `0`, a fresh lock and a fresh (unsignalled) semaphore are
created, and `Swap` copies `m_thread`, `m_timeout`, `m_success`.  The
derived class adds an implicit memberwise copy of `m_retVal`.
`Clone()` (lines 343-345) allocates a new object via this constructor. -/
def Clone {α β : Type} (rhs : DelegateMemberAsyncWait α β) : DelegateMemberAsyncWait α β :=
  { m_object := rhs.m_object
    m_func := rhs.m_func
    memberCall := rhs.memberCall
    m_thread := rhs.m_thread
    m_success := rhs.m_success
    m_timeout := rhs.m_timeout
    m_refCnt := 0
    m_semaSignaled := false
    m_retVal := rhs.m_retVal }

/-- `IsSuccess()` (`DelegateAsyncWait.h` line 312). -/
def IsSuccess {α β : Type} (d : DelegateMemberAsyncWait α β) : Bool :=
  d.m_success

/-- `GetRetVal()` (`DelegateAsyncWait.h` line 416). -/
def GetRetVal {α β : Type} (d : DelegateMemberAsyncWait α β) : β :=
  d.m_retVal

/-- Modelled from the spec: `DelegateMember::operator==` of `Delegate.h`
(not among the sources) — "Equality is structural: same underlying object
reference and same function identity". -/
def memberEq {α β : Type} (a b : DelegateMemberAsyncWait α β) : Bool :=
  a.m_object == b.m_object && a.m_func == b.m_func

/-- `DelegateMemberAsyncWaitBase::operator==` (`DelegateAsyncWait.h` lines
296-301): requires the right-hand side to be of the same specialization
(guaranteed here by the type), compares `m_thread`, and delegates the rest
to `DelegateMember::operator==`. -/
def operatorEq {α β : Type} (a b : DelegateMemberAsyncWait α β) : Bool :=
  a.m_thread == b.m_thread && memberEq a b

/-- Equality as the spec sentence words it: same underlying object
reference and same function identity, nothing else. -/
def specStructuralEq {α β : Type} (a b : DelegateMemberAsyncWait α β) : Bool :=
  a.m_object == b.m_object && a.m_func == b.m_func

/-- Which of the two participating threads performed an action. -/
inductive Party
  | callerThread
  | targetThread
deriving DecidableEq

/-- Shared per-call state of one dispatched call: the heap-allocated clone,
the number of times the bound callable has been invoked on it, the history
of values taken by the clone's `m_refCnt`, and the deallocation bookkeeping
for the clone + message envelope pair. -/
structure CallState (α β : Type) where
  clone : DelegateMemberAsyncWait α β
  invokeCount : Nat
  refTrace : List Int
  freeCount : Nat
  freedBy : Option Party
  msgFreed : Bool
  cloneFreed : Bool

/-- The dispatch prefix of `operator()` on the threaded path
(`DelegateAsyncWait.h` lines 352-363): clone the delegate, set the clone's
`m_refCnt = 2`, create and reset the clone's semaphore, wrap the clone (and
the argument snapshot) in a message envelope and hand it to the target
thread.  The envelope (`DelegateMsg1`, `DelegateInvoker.h`, not among the
sources) is modelled from the spec as the pair of the clone and the
argument snapshot; the snapshot is the `arg` later passed to
`DelegateInvoke`. -/
def dispatch {α β : Type} (caller : DelegateMemberAsyncWait α β) : CallState α β :=
  let c0 := Clone caller
  let c1 := { c0 with m_refCnt := 2, m_semaSignaled := false }
  { clone := c1
    invokeCount := 0
    refTrace := [c1.m_refCnt]
    freeCount := 0
    freedBy := none
    msgFreed := false
    cloneFreed := false }

/-- `DelegateInvoke` (`DelegateAsyncWait.h` lines 384-409), the critical
section executed by the target thread under the clone's lock: if the
observed `m_refCnt` equals 2, invoke the bound callable on the envelope's
argument snapshot, store the result in `m_retVal` and signal the semaphore;
in every case decrement `m_refCnt`, and free the envelope and the clone
when the decrement reaches 0 (the lock is released before freeing). -/
def DelegateInvoke {α β : Type} (arg : α) (s : CallState α β) : CallState α β :=
  let s1 :=
    if s.clone.m_refCnt = 2 then
      { s with
          clone := { s.clone with
                       m_retVal := s.clone.memberCall arg
                       m_semaSignaled := true }
          invokeCount := s.invokeCount + 1 }
    else s
  let newRef := s1.clone.m_refCnt - 1
  let s2 := { s1 with
                clone := { s1.clone with m_refCnt := newRef }
                refTrace := s1.refTrace ++ [newRef] }
  if newRef = 0 then
    { s2 with
        msgFreed := true
        cloneFreed := true
        freeCount := s2.freeCount + 1
        freedBy := some Party.targetThread }
  else s2

/-- The caller's continuation of `operator()` after its semaphore wait
returns (`DelegateAsyncWait.h` lines 365-378): record the wait outcome in
the caller object's `m_success`; if the wait succeeded copy the clone's
`m_retVal` into the caller's own `m_retVal`; then, under the clone's lock,
decrement the clone's `m_refCnt`, and free the envelope and the clone when
the decrement reaches 0 (the lock is released before freeing). -/
def callerPostWait {α β : Type} (waitOk : Bool) (caller : DelegateMemberAsyncWait α β)
    (s : CallState α β) : DelegateMemberAsyncWait α β × CallState α β :=
  let caller1 := { caller with m_success := waitOk }
  let caller2 := if waitOk then { caller1 with m_retVal := s.clone.m_retVal } else caller1
  let newRef := s.clone.m_refCnt - 1
  let s1 := { s with
                clone := { s.clone with m_refCnt := newRef }
                refTrace := s.refTrace ++ [newRef] }
  let s2 :=
    if newRef = 0 then
      { s1 with
          msgFreed := true
          cloneFreed := true
          freeCount := s1.freeCount + 1
          freedBy := some Party.callerThread }
    else s1
  (caller2, s2)

/-- The clone's lock serializes the two critical sections, so an execution
of one dispatched call is determined by which thread's critical section
runs first. -/
inductive Sched
  | targetFirst
  | callerFirst
deriving DecidableEq

/-- Admissible executions.  The semaphore contract (spec: `wait(timeoutMs)`
returns true only if signalled before the deadline) and the control flow of
`operator()` (the caller enters its critical section only after its wait
returns) force: if the caller's critical section runs before the target's,
the wait cannot have been signalled, hence it returned false. -/
def ValidSched (o : Sched) (waitOk : Bool) : Prop :=
  o = Sched.callerFirst → waitOk = false

instance : DecidablePred fun p : Sched × Bool => ValidSched p.1 p.2 := by
  intro p
  unfold ValidSched
  infer_instance

/-- One complete dispatched call (`operator()` threaded branch,
`DelegateAsyncWait.h` lines 351-380, interleaved with `DelegateInvoke` run
by the target thread): dispatch, then the two lock-serialized critical
sections in the order given by the schedule.  Returns the caller object
after the call, the value `operator()` returns (`return m_retVal`, line
379), and the final shared call state. -/
def runThreaded {α β : Type} (o : Sched) (waitOk : Bool) (arg : α)
    (caller : DelegateMemberAsyncWait α β) :
    DelegateMemberAsyncWait α β × β × CallState α β :=
  let s0 := dispatch caller
  match o with
  | Sched.targetFirst =>
    let s1 := DelegateInvoke arg s0
    let p := callerPostWait waitOk caller s1
    (p.1, p.1.m_retVal, p.2)
  | Sched.callerFirst =>
    let p := callerPostWait waitOk caller s0
    let s2 := DelegateInvoke arg p.2
    (p.1, p.1.m_retVal, s2)

/-- `operator()` in full (`DelegateAsyncWait.h` lines 348-381): when
`m_thread == 0` the bound callable is invoked directly and its result
returned synchronously (lines 349-350, via `DelegateMember::operator()`,
modelled from the spec as `memberCall`); otherwise the threaded path runs.
The third component is the per-call shared state, `none` when no clone was
created and no message enqueued. -/
def invokeOp {α β : Type} (o : Sched) (waitOk : Bool) (arg : α)
    (caller : DelegateMemberAsyncWait α β) :
    DelegateMemberAsyncWait α β × β × Option (CallState α β) :=
  match caller.m_thread with
  | none => (caller, caller.memberCall arg, none)
  | some _ =>
    let r := runThreaded o waitOk arg caller
    (r.1, r.2.1, some r.2.2)

/-- The atomic shared-state actions a thread performs during one dispatched
call, in source order.  `acquireLock` / `releaseLock` delimit the
`LockGuard` scopes. -/
inductive Ev
  | setRefTwo
  | semaCreateReset
  | dispatchMsg
  | semaWait
  | readResult
  | acquireLock
  | decideExec
  | invokeStoreResult
  | semaSignal
  | decRef
  | releaseLock
  | freeHeap
deriving DecidableEq

/-- Actions that touch a shared mutable field of the clone other than the
reference count and the execute decision. -/
def sharedTouch : Ev → Bool
  | Ev.setRefTwo => true
  | Ev.semaCreateReset => true
  | Ev.semaWait => true
  | Ev.readResult => true
  | Ev.invokeStoreResult => true
  | Ev.semaSignal => true
  | _ => false

/-- Lock-discipline check over an event trace, scanning with the current
lock-held flag.  In every mode: the lock is never re-acquired while held or
released while free, the reference-count decrement and the execute-or-skip
decision require the lock, and `freeHeap` requires the lock to have been
released.  With `strict := true` every other shared-state touch also
requires the lock (the claim as stated); with `strict := false` those
touches are unconstrained (the amended statement). -/
def lockedScan (strict : Bool) : Bool → List Ev → Bool
  | held, [] => !held
  | held, Ev.acquireLock :: rest => !held && lockedScan strict true rest
  | held, Ev.releaseLock :: rest => held && lockedScan strict false rest
  | held, Ev.freeHeap :: rest => !held && lockedScan strict held rest
  | held, Ev.decRef :: rest => held && lockedScan strict held rest
  | held, Ev.decideExec :: rest => held && lockedScan strict held rest
  | held, e :: rest => (!strict || !sharedTouch e || held) && lockedScan strict held rest

/-- The caller thread's shared-state actions in the threaded branch of
`operator()` (`DelegateAsyncWait.h` lines 352-378, success path):
`delegate->m_refCnt = 2` (line 354), `m_sema.Create(); m_sema.Reset()`
(lines 355-356), enqueue of the message (line 363), `m_sema.Wait` (line
366), `m_retVal = delegate->m_retVal` (line 367), then the `LockGuard`
block decrementing `m_refCnt` (lines 370-374), then the conditional frees
(lines 375-378). -/
def callerEvents : List Ev :=
  [Ev.setRefTwo, Ev.semaCreateReset, Ev.dispatchMsg, Ev.semaWait, Ev.readResult,
   Ev.acquireLock, Ev.decRef, Ev.releaseLock, Ev.freeHeap]

/-- The target thread's shared-state actions in `DelegateInvoke`
(`DelegateAsyncWait.h` lines 384-409, executed path): the `LockGuard` block
(lines 393-403) containing the `m_refCnt == 2` decision, the invocation
with result store, the semaphore signal, and the decrement; then the
conditional frees (lines 404-408). -/
def targetEvents : List Ev :=
  [Ev.acquireLock, Ev.decideExec, Ev.invokeStoreResult, Ev.semaSignal, Ev.decRef,
   Ev.releaseLock, Ev.freeHeap]

instance (o : Sched) (w : Bool) : Decidable (ValidSched o w) := by
  unfold ValidSched
  infer_instance

/-- A concrete delegate bound to object 1, member function 2 computing
`x * x`, target thread 7, timeout 500 ms. -/
def exDelegate : DelegateMemberAsyncWait Nat Nat :=
  { m_object := 1
    m_func := 2
    memberCall := fun x => x * x
    m_thread := some 7
    m_success := false
    m_timeout := 500
    m_refCnt := 0
    m_semaSignaled := false
    m_retVal := 0 }

/-- The same binding with no target thread configured. -/
def exDelegateNoThread : DelegateMemberAsyncWait Nat Nat :=
  { m_object := 1
    m_func := 2
    memberCall := fun x => x * x
    m_thread := none
    m_success := false
    m_timeout := 500
    m_refCnt := 0
    m_semaSignaled := false
    m_retVal := 0 }

/-- Same object and member function as `exDelegate`, different target
thread. -/
def exDelegateOtherThread : DelegateMemberAsyncWait Nat Nat :=
  { m_object := 1
    m_func := 2
    memberCall := fun x => x * x
    m_thread := some 8
    m_success := false
    m_timeout := 500
    m_refCnt := 0
    m_semaSignaled := false
    m_retVal := 0 }

/-- C1: for every call dispatched to a target thread, the bound callable is
invoked at most once over the life of one cloned delegate — in every
admissible interleaving of the two lock-serialized critical sections, the
clone's invocation count is 0 or 1, never more (`DelegateInvoke` runs the
callable only when it observes the clone's reference count equal to 2). -/
theorem C1_at_most_once (o : Sched) (waitOk : Bool) {α β : Type} (arg : α)
    (caller : DelegateMemberAsyncWait α β) (hv : ValidSched o waitOk) :
    (runThreaded o waitOk arg caller).2.2.invokeCount ≤ 1 := by
  cases o <;> cases waitOk <;>
    norm_num [runThreaded, dispatch, DelegateInvoke, callerPostWait, Clone]

theorem C1_at_most_once_witness :
    (runThreaded Sched.targetFirst true 5 exDelegate).2.2.invokeCount ≤ 1 :=
  C1_at_most_once Sched.targetFirst true 5 exDelegate (fun h => Sched.noConfusion h)

/-- C2: for every dispatched call the clone's reference count is exactly 2
at the moment of dispatch; across the two critical sections it takes
exactly the values 2, 1, 0 (each thread decrements by exactly one unit
exactly once, and it never underflows); and the clone plus its message
envelope are freed exactly once, by whichever thread's decrement reaches
0 (the caller when the target ran first, the target when the caller ran
first). -/
theorem C2_refcount_and_exactly_once_free (o : Sched) (waitOk : Bool) {α β : Type}
    (arg : α) (caller : DelegateMemberAsyncWait α β) (hv : ValidSched o waitOk) :
    (dispatch caller).clone.m_refCnt = 2 ∧
    (runThreaded o waitOk arg caller).2.2.refTrace = [2, 1, 0] ∧
    (∀ r ∈ (runThreaded o waitOk arg caller).2.2.refTrace, 0 ≤ r) ∧
    (runThreaded o waitOk arg caller).2.2.freeCount = 1 ∧
    (runThreaded o waitOk arg caller).2.2.msgFreed = true ∧
    (runThreaded o waitOk arg caller).2.2.cloneFreed = true ∧
    (runThreaded o waitOk arg caller).2.2.freedBy =
      some (match o with
            | Sched.targetFirst => Party.callerThread
            | Sched.callerFirst => Party.targetThread) := by
  cases o <;> cases waitOk <;>
    norm_num [runThreaded, dispatch, DelegateInvoke, callerPostWait, Clone]

theorem C2_refcount_and_exactly_once_free_witness :
    (dispatch exDelegate).clone.m_refCnt = 2 ∧
    (runThreaded Sched.callerFirst false 5 exDelegate).2.2.refTrace = [2, 1, 0] ∧
    (∀ r ∈ (runThreaded Sched.callerFirst false 5 exDelegate).2.2.refTrace, 0 ≤ r) ∧
    (runThreaded Sched.callerFirst false 5 exDelegate).2.2.freeCount = 1 ∧
    (runThreaded Sched.callerFirst false 5 exDelegate).2.2.msgFreed = true ∧
    (runThreaded Sched.callerFirst false 5 exDelegate).2.2.cloneFreed = true ∧
    (runThreaded Sched.callerFirst false 5 exDelegate).2.2.freedBy =
      some Party.targetThread :=
  C2_refcount_and_exactly_once_free Sched.callerFirst false 5 exDelegate (fun _ => rfl)

/-- C3: for every call whose wait succeeds (admissibility forces the target
thread's critical section to have run first), `IsSuccess()` is true after
`operator()` returns, the clone's result slot was copied into the caller's
own result holder, and `GetRetVal()` — which is also the value returned by
`operator()` — equals the value the callable actually computed for the
given argument. -/
theorem C3_success_implies_correct_result (o : Sched) {α β : Type} (arg : α)
    (caller : DelegateMemberAsyncWait α β) (hv : ValidSched o true) :
    IsSuccess (runThreaded o true arg caller).1 = true ∧
    GetRetVal (runThreaded o true arg caller).1 = caller.memberCall arg ∧
    (runThreaded o true arg caller).2.1 = caller.memberCall arg ∧
    GetRetVal (runThreaded o true arg caller).1 =
      (runThreaded o true arg caller).2.2.clone.m_retVal := by
  cases o with
  | targetFirst =>
      norm_num [runThreaded, dispatch, DelegateInvoke, callerPostWait, Clone,
        IsSuccess, GetRetVal]
  | callerFirst => exact absurd (hv rfl) (by decide)

theorem C3_success_implies_correct_result_witness :
    IsSuccess (runThreaded Sched.targetFirst true 5 exDelegate).1 = true ∧
    GetRetVal (runThreaded Sched.targetFirst true 5 exDelegate).1 =
      exDelegate.memberCall 5 ∧
    (runThreaded Sched.targetFirst true 5 exDelegate).2.1 = exDelegate.memberCall 5 ∧
    GetRetVal (runThreaded Sched.targetFirst true 5 exDelegate).1 =
      (runThreaded Sched.targetFirst true 5 exDelegate).2.2.clone.m_retVal :=
  C3_success_implies_correct_result Sched.targetFirst 5 exDelegate
    (fun h => Sched.noConfusion h)

/-- C4: for every call whose wait times out, `operator()` still returns a
value (the model is a total function — no exception path), `IsSuccess()` is
false afterwards, and the caller's own result holder is untouched: the
clone's result slot is copied only when the wait succeeded. -/
theorem C4_timeout_no_result_copy (o : Sched) {α β : Type} (arg : α)
    (caller : DelegateMemberAsyncWait α β) (hv : ValidSched o false) :
    IsSuccess (runThreaded o false arg caller).1 = false ∧
    GetRetVal (runThreaded o false arg caller).1 = caller.m_retVal ∧
    (runThreaded o false arg caller).2.1 = caller.m_retVal := by
  cases o <;>
    norm_num [runThreaded, dispatch, DelegateInvoke, callerPostWait, Clone,
      IsSuccess, GetRetVal]

theorem C4_timeout_no_result_copy_witness :
    IsSuccess (runThreaded Sched.callerFirst false 5 exDelegate).1 = false ∧
    GetRetVal (runThreaded Sched.callerFirst false 5 exDelegate).1 =
      exDelegate.m_retVal ∧
    (runThreaded Sched.callerFirst false 5 exDelegate).2.1 = exDelegate.m_retVal :=
  C4_timeout_no_result_copy Sched.callerFirst 5 exDelegate (fun _ => rfl)

/-- C5: for every delegate bound with no target thread, `operator()` calls
the bound callable directly on the caller's thread and returns its result
synchronously: the caller object is unchanged, the returned value is the
callable's result on the argument, and no per-call shared state exists —
no clone, no enqueued message, no wait or timeout semantics. -/
theorem C5_zero_thread_direct_call (o : Sched) (waitOk : Bool) {α β : Type} (arg : α)
    (caller : DelegateMemberAsyncWait α β) (h : caller.m_thread = none) :
    invokeOp o waitOk arg caller = (caller, caller.memberCall arg, none) := by
  unfold invokeOp
  rw [h]

theorem C5_zero_thread_direct_call_witness :
    invokeOp Sched.targetFirst true 5 exDelegateNoThread =
      (exDelegateNoThread, exDelegateNoThread.memberCall 5, none) :=
  C5_zero_thread_direct_call Sched.targetFirst true 5 exDelegateNoThread rfl

/-- C6: in `DelegateInvoke`, if the reference count observed under the lock
equals 2, the callable is invoked on the envelope's argument snapshot, its
result is stored in the result slot, and the signal is raised — in that
source order (store before signal before decrement) — leaving the count at
1; if the count is not 2, invocation is skipped entirely and the signal is
never raised; in both cases the count is then decremented by one. -/
theorem C6_execute_contract {α β : Type} (arg : α) (s : CallState α β) :
    (s.clone.m_refCnt = 2 →
      (DelegateInvoke arg s).invokeCount = s.invokeCount + 1 ∧
      (DelegateInvoke arg s).clone.m_retVal = s.clone.memberCall arg ∧
      (DelegateInvoke arg s).clone.m_semaSignaled = true ∧
      (DelegateInvoke arg s).clone.m_refCnt = 1) ∧
    (s.clone.m_refCnt ≠ 2 →
      (DelegateInvoke arg s).invokeCount = s.invokeCount ∧
      (DelegateInvoke arg s).clone.m_retVal = s.clone.m_retVal ∧
      (DelegateInvoke arg s).clone.m_semaSignaled = s.clone.m_semaSignaled ∧
      (DelegateInvoke arg s).clone.m_refCnt = s.clone.m_refCnt - 1) ∧
    (DelegateInvoke arg s).refTrace = s.refTrace ++ [s.clone.m_refCnt - 1] ∧
    targetEvents.indexOf Ev.invokeStoreResult < targetEvents.indexOf Ev.semaSignal ∧
    targetEvents.indexOf Ev.semaSignal < targetEvents.indexOf Ev.decRef := by
  refine ⟨fun h2 => ?_, fun hn => ?_, ?_, by decide, by decide⟩
  · simp [DelegateInvoke, h2]
  · simp only [DelegateInvoke, if_neg hn]
    split <;> simp
  · by_cases h2 : s.clone.m_refCnt = 2
    · simp [DelegateInvoke, h2]
    · simp only [DelegateInvoke, if_neg h2]
      split <;> simp

theorem C6_execute_contract_witness :
    (DelegateInvoke 5 (dispatch exDelegate)).invokeCount =
      (dispatch exDelegate).invokeCount + 1 ∧
    (DelegateInvoke 5 (dispatch exDelegate)).clone.m_retVal =
      (dispatch exDelegate).clone.memberCall 5 ∧
    (DelegateInvoke 5 (dispatch exDelegate)).clone.m_semaSignaled = true ∧
    (DelegateInvoke 5 (dispatch exDelegate)).clone.m_refCnt = 1 :=
  (C6_execute_contract 5 (dispatch exDelegate)).1 (by decide)

/-- C7 counterexample: the claim that every shared-state access — including
every mutation of the per-call reference count — happens while holding the
clone's lock is false of the source: in the caller's `operator()` the
initialization `delegate->m_refCnt = 2` (line 354), the semaphore creation,
reset and wait (lines 355-356, 366), and the read of the clone's result
slot `m_retVal = delegate->m_retVal` (line 367) all occur outside the
`LockGuard` scope, so the strict lock-discipline scan rejects the caller's
event trace. -/
theorem C7_lock_discipline_counterexample :
    ¬ (lockedScan true false callerEvents = true ∧
       lockedScan true false targetEvents = true) := by
  decide

/-- C7 (amended): in both threads, the decrement of the per-call reference
count and the execute-or-skip decision happen while holding the clone's
lock (so the two critical sections are totally ordered), and the lock is
never double-acquired and is released before the clone and message are
freed; moreover in `DelegateInvoke` every shared-state access is under the
lock.  What fails of the original claim is only the caller side: the
pre-dispatch initialization of the reference count to 2, the semaphore
operations, and the read of the result slot occur outside the lock. -/
theorem C7_lock_discipline_amended :
    lockedScan false false callerEvents = true ∧
    lockedScan false false targetEvents = true ∧
    lockedScan true false targetEvents = true := by
  decide

/-- C8 counterexample: two delegates of the same specialization bound to
the same object (1) and the same member function (2) but configured with
different target threads (7 and 8) are structurally equal in the spec's
sense, yet the source's `operator==` returns false, because it additionally
compares `m_thread` (`DelegateAsyncWait.h` line 299). -/
theorem C8_structural_equality_counterexample :
    specStructuralEq exDelegate exDelegateOtherThread = true ∧
    operatorEq exDelegate exDelegateOtherThread = false := by
  exact ⟨rfl, rfl⟩

/-- C8 (amended): `operator==` is structural, but over three components,
not two — it returns true exactly when the two delegates reference the same
underlying object, the same function identity, and the same target
thread. -/
theorem C8_operator_eq_characterization {α β : Type}
    (a b : DelegateMemberAsyncWait α β) :
    operatorEq a b = true ↔
      (a.m_thread = b.m_thread ∧ a.m_object = b.m_object ∧ a.m_func = b.m_func) := by
  simp [operatorEq, memberEq, and_assoc]

/-- C9: every copy-constructed delegate — in particular the per-call clone
made by `Clone()` — starts with reference count 0 regardless of the
source's reference count, carries a fresh (unsignalled) semaphore and a
fresh lock rather than sharing the source's, and copies the thread pointer,
the timeout, and the success flag; hence each call's clone carries fresh
per-call mutable state. -/
theorem C9_clone_fresh_per_call_state {α β : Type}
    (rhs : DelegateMemberAsyncWait α β) :
    (Clone rhs).m_refCnt = 0 ∧
    (Clone rhs).m_semaSignaled = false ∧
    (Clone rhs).m_thread = rhs.m_thread ∧
    (Clone rhs).m_timeout = rhs.m_timeout ∧
    (Clone rhs).m_success = rhs.m_success := by
  simp [Clone]

/-- C10: a threaded `operator()` mutates only the caller object's success
flag and result holder — the target thread pointer, the timeout, the bound
object and function, the caller's own reference count, and the caller's own
semaphore are unchanged when it returns (all per-call mutation happens on
the heap-allocated clone). -/
theorem C10_threaded_invoke_frame (o : Sched) (waitOk : Bool) {α β : Type}
    (arg : α) (caller : DelegateMemberAsyncWait α β) (hv : ValidSched o waitOk) :
    (runThreaded o waitOk arg caller).1.m_thread = caller.m_thread ∧
    (runThreaded o waitOk arg caller).1.m_timeout = caller.m_timeout ∧
    (runThreaded o waitOk arg caller).1.m_object = caller.m_object ∧
    (runThreaded o waitOk arg caller).1.m_func = caller.m_func ∧
    (runThreaded o waitOk arg caller).1.memberCall = caller.memberCall ∧
    (runThreaded o waitOk arg caller).1.m_refCnt = caller.m_refCnt ∧
    (runThreaded o waitOk arg caller).1.m_semaSignaled = caller.m_semaSignaled := by
  cases o <;> cases waitOk <;>
    norm_num [runThreaded, dispatch, DelegateInvoke, callerPostWait, Clone]

theorem C10_threaded_invoke_frame_witness :
    (runThreaded Sched.targetFirst true 5 exDelegate).1.m_thread =
      exDelegate.m_thread ∧
    (runThreaded Sched.targetFirst true 5 exDelegate).1.m_timeout =
      exDelegate.m_timeout ∧
    (runThreaded Sched.targetFirst true 5 exDelegate).1.m_object =
      exDelegate.m_object ∧
    (runThreaded Sched.targetFirst true 5 exDelegate).1.m_func =
      exDelegate.m_func ∧
    (runThreaded Sched.targetFirst true 5 exDelegate).1.memberCall =
      exDelegate.memberCall ∧
    (runThreaded Sched.targetFirst true 5 exDelegate).1.m_refCnt =
      exDelegate.m_refCnt ∧
    (runThreaded Sched.targetFirst true 5 exDelegate).1.m_semaSignaled =
      exDelegate.m_semaSignaled :=
  C10_threaded_invoke_frame Sched.targetFirst true 5 exDelegate
    (fun h => Sched.noConfusion h)
